import Mathlib

/-!
Shallow embedding of the GenLayer price-feed repository
(`Price-feed-library.py` and `Price-feed-example.py`).

Modelling conventions:
* Python numbers (prices, thresholds, amounts) are rationals (`Rat`).
* Python dicts are association lists with insert-or-update semantics
  (`dictInsert`): an existing key keeps its position, a fresh key is
  appended — exactly Python's insertion-order behaviour.
* The external LLM fetch (`gl.exec_llm`) together with `json.loads` is
  modelled as an oracle `Nat → FetchOutcome` consumed in call order; the
  contract state carries a `fetchCount` counting how many external
  fetches have been issued.  `fetchFail` models `gl.exec_llm` raising,
  `parseFail` models `json.loads` raising (both are caught by the same
  `except` block in `get_price`), and `parsed d` models a successfully
  parsed payload whose fields may individually be absent (Python
  `dict.get` returning `None` is `Option.none`).
* A Python run that raises an uncaught exception (e.g. `None > 0` or
  `None * 2` in code that has no `try`) is modelled as `Option.none` at
  the outermost level of the operation's result.
-/

/-- Python `str.upper()` (ASCII case mapping, which covers every string the
source manipulates).  Defined as a character map so that concrete instances
reduce inside the kernel. -/
def pyUpper (s : String) : String := ⟨s.data.map Char.toUpper⟩

/-- Python `str.lower()` (ASCII case mapping). -/
def pyLower (s : String) : String := ⟨s.data.map Char.toLower⟩

/-- A parsed fetch payload: `json.loads` result, read with `.get`, so each
field is optional (`none` models a missing key / `None`). -/
structure PriceData where
  price : Option Rat
  change_24h : Option Rat
  market_cap : Option Rat
deriving DecidableEq

/-- Outcome of one external fetch attempt (one `gl.exec_llm` call plus the
following `json.loads`). -/
inductive FetchOutcome
  | fetchFail
  | parseFail
  | parsed (d : PriceData)
deriving DecidableEq

/-- Python dict assignment `d[k] = v`: update in place if the key exists,
append otherwise. -/
def dictInsert (k : String) (v : α) : List (String × α) → List (String × α)
  | [] => [(k, v)]
  | (k', v') :: rest => if k' = k then (k, v) :: rest else (k', v') :: dictInsert k v rest

/-- Python `k in d` for our dict model. -/
def hasKey (l : List (String × α)) (k : String) : Bool :=
  l.any (fun p => p.1 == k)

/-- `SUPPORTED_COINS` table of `PriceFeedLibrary`, verbatim. -/
def SUPPORTED_COINS : List (String × String) :=
  [("BTC", "bitcoin"), ("ETH", "ethereum"), ("SOL", "solana"), ("USDT", "tether"),
   ("USDC", "usd-coin"), ("BNB", "binancecoin"), ("XRP", "ripple"), ("ADA", "cardano"),
   ("DOGE", "dogecoin"), ("MATIC", "matic-network"), ("DOT", "polkadot"),
   ("AVAX", "avalanche-2"), ("LINK", "chainlink"), ("UNI", "uniswap"), ("ATOM", "cosmos")]

/-- Mutable state of a `PriceFeedLibrary` instance.  `price_cache` and
`last_update` are the two dict attributes (`last_update` is initialised
empty and never touched by any method); `fetchCount` indexes the fetch
oracle and counts issued external fetches. -/
structure LibState where
  price_cache : List (String × PriceData)
  last_update : List (String × Rat)
  fetchCount : Nat
deriving DecidableEq

/-- The state produced by `__init__`. -/
def initLib : LibState := ⟨[], [], 0⟩

/-- Return value of `get_price`: one constructor per dict shape the Python
function can return. -/
inductive GetPriceResult
  | unsupported (error : String) (supported_coins : List String)
  | ok (symbol currency : String) (price change_24h market_cap : Option Rat)
  | err (error : String) (symbol : String)
deriving DecidableEq

/-- Python `result.get("success")` truthiness on a `get_price` result. -/
def isSuccess : GetPriceResult → Bool
  | .ok _ _ _ _ _ => true
  | _ => false

/-- Python `result.get("price", 0)` on a `get_price` result dict: the `ok`
dict carries a "price" key (possibly `None`); the failure dicts have no
"price" key, so the default `0` is returned. -/
def resPrice : GetPriceResult → Option Rat
  | .ok _ _ p _ _ => p
  | _ => some 0

/-- `PriceFeedLibrary.get_price`.  Normalises the symbol and currency,
rejects unsupported symbols, otherwise issues exactly one external fetch;
a parsed payload is stored in `price_cache` under `f"{symbol}_{currency}"`
and echoed in a success dict; an exception from the fetch or the parse is
caught and turned into a failure dict. -/
def get_price (st : LibState) (oracle : Nat → FetchOutcome) (symbol currency : String) :
    GetPriceResult × LibState :=
  let symbolN := pyUpper symbol
  let currencyN := pyLower currency
  match SUPPORTED_COINS.lookup symbolN with
  | none =>
      (.unsupported ("Unsupported symbol: " ++ symbolN) (SUPPORTED_COINS.map Prod.fst), st)
  | some _coin_id =>
      let outcome := oracle st.fetchCount
      let st1 : LibState := ⟨st.price_cache, st.last_update, st.fetchCount + 1⟩
      match outcome with
      | .fetchFail => (.err "Failed to fetch price" symbolN, st1)
      | .parseFail => (.err "Failed to fetch price" symbolN, st1)
      | .parsed d =>
          let cache_key := symbolN ++ "_" ++ currencyN
          (.ok symbolN currencyN d.price d.change_24h d.market_cap,
           ⟨dictInsert cache_key d st1.price_cache, st1.last_update, st1.fetchCount⟩)

/-- Python comparison `a > b` where either operand may be `None`: comparing
`None` with a number raises `TypeError`, modelled as `none`. -/
def pyGt : Option Rat → Option Rat → Option Bool
  | some a, some b => some (decide (b < a))
  | _, _ => none

/-- Python `a / b` where either operand may be `None` (`TypeError` → `none`).
Both operands numeric never faults here (the source only divides under a
`b > 0` guard, so `ZeroDivisionError` is unreachable on this path). -/
def pyDiv : Option Rat → Option Rat → Option Rat
  | some a, some b => some (a / b)
  | _, _ => none

/-- Python `a * b` with a possibly-`None` left operand. -/
def pyMul : Option Rat → Rat → Option Rat
  | some a, b => some (a * b)
  | none, _ => none

/-- Return value of `get_multiple_prices`. -/
structure MultiResult where
  success : Bool
  currency : String
  count : Nat
  prices : List (String × GetPriceResult)
deriving DecidableEq

/-- The `for symbol in symbols` loop of `get_multiple_prices`: each iteration
calls `get_price` and stores its result under the raw input symbol. -/
def multiGo (oracle : Nat → FetchOutcome) (currency : String) :
    List String → List (String × GetPriceResult) → LibState →
      List (String × GetPriceResult) × LibState
  | [], acc, st => (acc, st)
  | s :: rest, acc, st =>
      let (pd, st') := get_price st oracle s currency
      multiGo oracle currency rest (dictInsert s pd acc) st'

/-- `PriceFeedLibrary.get_multiple_prices`. -/
def get_multiple_prices (st : LibState) (oracle : Nat → FetchOutcome)
    (symbols : List String) (currency : String) : MultiResult × LibState :=
  let (results, st') := multiGo oracle currency symbols [] st
  (⟨true, currency, results.length, results⟩, st')

/-- Return value of `compare_prices`; `ok` fields follow the source dict in
order: comparison, symbol1, price1, symbol2, price2, ratio, higher. -/
inductive CompareResult
  | err : String → CompareResult
  | ok : String → String → Option Rat → String → Option Rat → Rat → String → CompareResult
deriving DecidableEq

/-- `PriceFeedLibrary.compare_prices`.  Fetches both symbols (default
currency "usd"), fails wholesale if either fetch failed; otherwise computes
`ratio = price1 / price2 if price2 > 0 else 0` and
`higher = symbol1 if price1 > price2 else symbol2`.  The body has no
`try`, so a `None` price reaching a comparison or division raises — outer
`none`. -/
def compare_prices (st : LibState) (oracle : Nat → FetchOutcome)
    (symbol1 symbol2 : String) : Option CompareResult × LibState :=
  let (p1, stA) := get_price st oracle symbol1 "usd"
  let (p2, stB) := get_price stA oracle symbol2 "usd"
  if !isSuccess p1 || !isSuccess p2 then
    (some (.err "Failed to fetch one or both prices"), stB)
  else
    let price1 := resPrice p1
    let price2 := resPrice p2
    match pyGt price2 (some 0) with
    | none => (none, stB)
    | some pos =>
        match (if pos then pyDiv price1 price2 else some 0) with
        | none => (none, stB)
        | some rq =>
            match pyGt price1 price2 with
            | none => (none, stB)
            | some hi =>
                (some (.ok (symbol1 ++ "/" ++ symbol2) symbol1 price1 symbol2 price2 rq
                  (if hi then symbol1 else symbol2)), stB)

/-- Return value of `is_price_above`: the source either returns the
`get_price` failure dict unchanged (`passthrough`) or a fresh success dict
whose fields follow the source order: symbol, current_price, threshold,
is_above, difference, percentage_diff. -/
inductive AboveResult
  | passthrough : GetPriceResult → AboveResult
  | ok : String → Rat → Rat → Bool → Rat → Rat → AboveResult
deriving DecidableEq

/-- `PriceFeedLibrary.is_price_above`.  On a successful fetch,
`current_price = price_data.get("price", 0)`; a `None` price faults at
`current_price > threshold` (outer `none`); otherwise
`percentage_diff = (current_price - threshold) / threshold * 100 if
threshold > 0 else 0`. -/
def is_price_above (st : LibState) (oracle : Nat → FetchOutcome)
    (symbol : String) (threshold : Rat) (currency : String) :
    Option AboveResult × LibState :=
  let (pd, st') := get_price st oracle symbol currency
  if !isSuccess pd then (some (.passthrough pd), st')
  else
    match resPrice pd with
    | none => (none, st')
    | some cp =>
        (some (.ok symbol cp threshold (decide (threshold < cp)) (cp - threshold)
          (if 0 < threshold then (cp - threshold) / threshold * 100 else 0)), st')

/-!
`PriceFeedExample`: the example contract holds the library's address and
calls it through `gl.call_contract`; we model that by passing the library
state and the fetch oracle explicitly and threading the library state.
-/

/-- One alert dict as stored by `set_price_alert`. -/
structure Alert where
  symbol : String
  threshold : Rat
  type : String
  active : Bool
deriving DecidableEq

/-- Mutable state of a `PriceFeedExample` instance: `user_alerts` maps a
user-address string to that user's list of alerts (append order kept). -/
structure ExState where
  user_alerts : List (String × List Alert)
deriving DecidableEq

/-- Return value of `set_price_alert` (the message's threshold formatting is
kept abstract as the threshold itself). -/
structure SetAlertResult where
  success : Bool
  message : String
  alert : Alert
deriving DecidableEq

/-- `PriceFeedExample.set_price_alert`: appends an alert with the
caller-supplied `alert_type` string (no validation) and `active = True`. -/
def set_price_alert (ex : ExState) (sender symbol : String) (threshold : Rat)
    (alert_type : String) : SetAlertResult × ExState :=
  let old := (List.lookup sender ex.user_alerts).getD []
  let alert : Alert := ⟨symbol, threshold, alert_type, true⟩
  (⟨true, "Alert set: " ++ symbol ++ " " ++ alert_type, alert⟩,
   ⟨dictInsert sender (old ++ [alert]) ex.user_alerts⟩)

/-- One entry of `triggered_alerts`, fields in source order: symbol,
threshold, current_price, type. -/
structure TriggeredAlert where
  symbol : String
  threshold : Rat
  current_price : Rat
  type : String
deriving DecidableEq

/-- Return value of `check_alerts`: the no-alerts branch returns a message
dict, the main branch returns a count plus the triggered list. -/
inductive CheckAlertsResult
  | noAlerts : String → CheckAlertsResult
  | checked : Nat → List TriggeredAlert → CheckAlertsResult
deriving DecidableEq

/-- The `for alert in self.user_alerts[user]` loop of `check_alerts`:
inactive alerts are skipped; each active alert calls `is_price_above`;
failed fetches are skipped silently; a rule appends a triggered entry when
`type == "above" and is_above` or `type == "below" and not is_above`. -/
def checkAlertsGo (oracle : Nat → FetchOutcome) :
    List Alert → LibState → List TriggeredAlert →
      Option (List TriggeredAlert × LibState)
  | [], st, acc => some (acc, st)
  | a :: rest, st, acc =>
      if !a.active then checkAlertsGo oracle rest st acc
      else
        match is_price_above st oracle a.symbol a.threshold "usd" with
        | (none, _) => none
        | (some (.passthrough _), st') => checkAlertsGo oracle rest st' acc
        | (some (.ok _ cp _ isAb _ _), st') =>
            let should :=
              if a.type = "above" && isAb then true
              else if a.type = "below" && !isAb then true
              else false
            if should then
              checkAlertsGo oracle rest st' (acc ++ [⟨a.symbol, a.threshold, cp, a.type⟩])
            else checkAlertsGo oracle rest st' acc

/-- `PriceFeedExample.check_alerts` for caller `sender`. -/
def check_alerts (ex : ExState) (libSt : LibState) (oracle : Nat → FetchOutcome)
    (sender : String) : Option CheckAlertsResult × LibState :=
  match List.lookup sender ex.user_alerts with
  | none => (some (.noAlerts "No alerts set"), libSt)
  | some alerts =>
      match checkAlertsGo oracle alerts libSt [] with
      | none => (none, libSt)
      | some (triggered, st') => (some (.checked triggered.length triggered), st')

/-- One `breakdown[symbol]` entry, fields in source order: amount, price,
value. -/
structure BreakdownEntry where
  amount : Rat
  price : Rat
  value : Rat
deriving DecidableEq

/-- Return value of `check_portfolio_value`: total_value_usd, breakdown,
currency — note there is no success/error field of any kind. -/
structure PortfolioResult where
  total_value_usd : Rat
  breakdown : List (String × BreakdownEntry)
  currency : String
deriving DecidableEq

/-- The `for symbol, amount in holdings.items()` loop of
`check_portfolio_value`: only successful fetches contribute; a success dict
carrying a `None` price faults at `price * amount` (outer `none`). -/
def portfolioGo (oracle : Nat → FetchOutcome) :
    List (String × Rat) → LibState → Rat → List (String × BreakdownEntry) →
      Option (Rat × List (String × BreakdownEntry) × LibState)
  | [], st, total, bd => some (total, bd, st)
  | (sym, amt) :: rest, st, total, bd =>
      let (pd, st') := get_price st oracle sym "usd"
      if isSuccess pd then
        match pyMul (resPrice pd) amt with
        | none => none
        | some v =>
            match resPrice pd with
            | none => none
            | some pr =>
                portfolioGo oracle rest st' (total + v) (dictInsert sym ⟨amt, pr, v⟩ bd)
      else portfolioGo oracle rest st' total bd

/-- `PriceFeedExample.check_portfolio_value`. -/
def check_portfolio_value (holdings : List (String × Rat)) (libSt : LibState)
    (oracle : Nat → FetchOutcome) : Option (PortfolioResult × LibState) :=
  match portfolioGo oracle holdings libSt 0 [] with
  | none => none
  | some (t, bd, st') => some (⟨t, bd, "USD"⟩, st')

/-- The `triggered_alerts` list carried by a `check_alerts` result. -/
def trigList : CheckAlertsResult → List TriggeredAlert
  | .noAlerts _ => []
  | .checked _ l => l

/-! ## Helper lemmas -/

theorem lookup_dictInsert (k : String) (v : α) (l : List (String × α)) :
    List.lookup k (dictInsert k v l) = some v := by
  induction l with
  | nil => simp [dictInsert]
  | cons hd tl ih =>
      obtain ⟨k', v'⟩ := hd
      by_cases h : k' = k
      · simp [dictInsert, h]
      · simp only [dictInsert, if_neg h]
        rw [List.lookup_cons]
        have : (k == k') = false := by simpa using Ne.symm h
        simp [this, ih]

theorem dictInsert_eq_append {l : List (String × α)} {k : String} (v : α)
    (h : hasKey l k = false) : dictInsert k v l = l ++ [(k, v)] := by
  induction l with
  | nil => simp [dictInsert]
  | cons hd tl ih =>
      obtain ⟨k', v'⟩ := hd
      simp only [hasKey, List.any_cons, Bool.or_eq_false_iff] at h
      obtain ⟨h1, h2⟩ := h
      have hne : k' ≠ k := by simpa using h1
      simp [dictInsert, hne, ih h2]

theorem length_dictInsert_fresh {l : List (String × α)} {k : String} (v : α)
    (h : hasKey l k = false) : (dictInsert k v l).length = l.length + 1 := by
  rw [dictInsert_eq_append v h]
  simp

theorem hasKey_append (l l' : List (String × α)) (k : String) :
    hasKey (l ++ l') k = (hasKey l k || hasKey l' k) := by
  simp [hasKey]

example :
    (get_price initLib (fun _ => .parsed ⟨some 5, some 1, some 2⟩) "btc" "USD").1
      = .ok "BTC" "usd" (some 5) (some 1) (some 2) := by decide

example :
    (get_price initLib (fun _ => .fetchFail) "BTC" "usd").2.price_cache = [] := by decide

/-! ## Claim theorems -/

/-- C1 (counterexample): with a cached quote (price 1) stored for the key
`BTC_usd` — an entry that can never expire, since the source tracks no
timestamps or TTL — a `get_price` call for the same key still issues an
external fetch (`fetchCount` goes 0 → 1) and returns the freshly fetched
quote (price 2), not the cached one, overwriting the cache. -/
theorem get_price_fetches_despite_cached_entry :
    get_price ⟨[("BTC_usd", ⟨some 1, some 0, some 0⟩)], [], 0⟩
        (fun _ => .parsed ⟨some 2, some 0, some 0⟩) "BTC" "usd"
      = (.ok "BTC" "usd" (some 2) (some 0) (some 0),
         ⟨[("BTC_usd", ⟨some 2, some 0, some 0⟩)], [], 1⟩) ∧
    (some (2 : Rat) ≠ some (1 : Rat)) ∧ (1 : Nat) ≠ 0 := by
  refine ⟨by decide, by decide, by decide⟩

/-- C1 (amended): `get_price` never consults the cache.  For a supported
symbol, the returned dict is independent of the cache contents, every call
issues exactly one external fetch, and the cache entry for the key is
overwritten on a parsed payload and left unchanged otherwise. -/
theorem get_price_never_reads_cache (st : LibState)
    (cache : List (String × PriceData)) (oracle : Nat → FetchOutcome)
    (symbol currency cid : String)
    (hs : SUPPORTED_COINS.lookup (pyUpper symbol) = some cid) :
    (get_price ⟨cache, st.last_update, st.fetchCount⟩ oracle symbol currency).1
        = (get_price st oracle symbol currency).1 ∧
    (get_price st oracle symbol currency).2.fetchCount = st.fetchCount + 1 ∧
    (get_price st oracle symbol currency).2.price_cache
        = (match oracle st.fetchCount with
           | .parsed d =>
               dictInsert (pyUpper symbol ++ "_" ++ pyLower currency) d st.price_cache
           | _ => st.price_cache) := by
  unfold get_price
  simp only [hs]
  cases h : oracle st.fetchCount <;> simp [h]

/-- C1 witness for `get_price_never_reads_cache`. -/
theorem get_price_never_reads_cache_witness :
    SUPPORTED_COINS.lookup (pyUpper "BTC") = some "bitcoin" ∧
    ((get_price ⟨[("X", ⟨none, none, none⟩)], initLib.last_update, initLib.fetchCount⟩
          (fun _ => .fetchFail) "BTC" "usd").1
        = (get_price initLib (fun _ => .fetchFail) "BTC" "usd").1 ∧
     (get_price initLib (fun _ => .fetchFail) "BTC" "usd").2.fetchCount
        = initLib.fetchCount + 1 ∧
     (get_price initLib (fun _ => .fetchFail) "BTC" "usd").2.price_cache
        = (match (fun _ => FetchOutcome.fetchFail : Nat → FetchOutcome) initLib.fetchCount with
           | .parsed d => dictInsert (pyUpper "BTC" ++ "_" ++ pyLower "usd") d
               initLib.price_cache
           | _ => initLib.price_cache)) :=
  ⟨by decide,
   get_price_never_reads_cache initLib [("X", ⟨none, none, none⟩)]
     (fun _ => .fetchFail) "BTC" "usd" "bitcoin" (by decide)⟩

/-- C2 (counterexample): two requests for the same stale/missing key
(`BTC_usd`, absent from the empty cache) issue two external fetches, not
exactly one, and the two callers receive different quote values when the
external source answers differently. -/
theorem two_same_key_calls_issue_two_fetches :
    (get_price
        (get_price initLib
          (fun n => if n = 0 then .parsed ⟨some 10, some 0, some 0⟩
                    else .parsed ⟨some 20, some 0, some 0⟩) "BTC" "usd").2
        (fun n => if n = 0 then .parsed ⟨some 10, some 0, some 0⟩
                  else .parsed ⟨some 20, some 0, some 0⟩) "BTC" "usd").2.fetchCount = 2 ∧
    (2 : Nat) ≠ 1 ∧
    (get_price initLib
        (fun n => if n = 0 then .parsed ⟨some 10, some 0, some 0⟩
                  else .parsed ⟨some 20, some 0, some 0⟩) "BTC" "usd").1
      = .ok "BTC" "usd" (some 10) (some 0) (some 0) ∧
    (get_price
        (get_price initLib
          (fun n => if n = 0 then .parsed ⟨some 10, some 0, some 0⟩
                    else .parsed ⟨some 20, some 0, some 0⟩) "BTC" "usd").2
        (fun n => if n = 0 then .parsed ⟨some 10, some 0, some 0⟩
                  else .parsed ⟨some 20, some 0, some 0⟩) "BTC" "usd").1
      = .ok "BTC" "usd" (some 20) (some 0) (some 0) ∧
    some (10 : Rat) ≠ some (20 : Rat) := by
  refine ⟨by decide, by decide, by decide, by decide, by decide⟩

/-- C2 (amended): the cache performs no coalescing whatsoever — every
`get_price` call for a supported symbol issues its own external fetch, so
N calls for the same key issue N fetches, and each caller receives the
value of its own fetch (here shown for two back-to-back calls). -/
theorem get_price_no_fetch_coalescing (st : LibState) (oracle : Nat → FetchOutcome)
    (symbol currency cid : String) (d1 d2 : PriceData)
    (hs : SUPPORTED_COINS.lookup (pyUpper symbol) = some cid)
    (h1 : oracle st.fetchCount = .parsed d1)
    (h2 : oracle (st.fetchCount + 1) = .parsed d2) :
    (get_price st oracle symbol currency).1
        = .ok (pyUpper symbol) (pyLower currency) d1.price d1.change_24h d1.market_cap ∧
    (get_price (get_price st oracle symbol currency).2 oracle symbol currency).1
        = .ok (pyUpper symbol) (pyLower currency) d2.price d2.change_24h d2.market_cap ∧
    (get_price (get_price st oracle symbol currency).2 oracle symbol currency).2.fetchCount
        = st.fetchCount + 2 := by
  unfold get_price
  simp only [hs, h1]
  simp only [h2]
  exact ⟨trivial, trivial, trivial⟩

/-- C2 witness for `get_price_no_fetch_coalescing`. -/
theorem get_price_no_fetch_coalescing_witness :
    SUPPORTED_COINS.lookup (pyUpper "BTC") = some "bitcoin" ∧
    ((fun _ => FetchOutcome.parsed ⟨some 7, none, none⟩) : Nat → FetchOutcome)
        initLib.fetchCount = .parsed ⟨some 7, none, none⟩ ∧
    (get_price initLib (fun _ => .parsed ⟨some 7, none, none⟩) "BTC" "usd").1
        = .ok (pyUpper "BTC") (pyLower "usd") (some 7) none none := by
  refine ⟨by decide, by decide, ?_⟩
  have h := get_price_no_fetch_coalescing initLib (fun _ => .parsed ⟨some 7, none, none⟩)
    "BTC" "usd" "bitcoin" ⟨some 7, none, none⟩ ⟨some 7, none, none⟩
    (by decide) (by decide) (by decide)
  exact h.1

/-- C3 (confirmed): when the external fetch for a supported symbol fails —
either `gl.exec_llm` raising or `json.loads` failing on its output — the
cache (stale or absent entry alike) is left completely unchanged, and the
caller receives the structured failure dict
`{"success": False, "error": ..., "symbol": ...}`. -/
theorem fetch_failure_leaves_cache_unchanged (st : LibState)
    (oracle : Nat → FetchOutcome) (symbol currency cid : String)
    (hs : SUPPORTED_COINS.lookup (pyUpper symbol) = some cid)
    (hf : oracle st.fetchCount = .fetchFail ∨ oracle st.fetchCount = .parseFail) :
    get_price st oracle symbol currency
      = (.err "Failed to fetch price" (pyUpper symbol),
         ⟨st.price_cache, st.last_update, st.fetchCount + 1⟩) ∧
    isSuccess (get_price st oracle symbol currency).1 = false := by
  unfold get_price
  rcases hf with hf | hf <;> simp [hs, hf, isSuccess]

/-- C3 witness for `fetch_failure_leaves_cache_unchanged`. -/
theorem fetch_failure_leaves_cache_unchanged_witness :
    SUPPORTED_COINS.lookup (pyUpper "ETH") = some "ethereum" ∧
    (get_price ⟨[("ETH_usd", ⟨some 3, none, none⟩)], [], 5⟩ (fun _ => .fetchFail) "ETH" "usd"
        = (.err "Failed to fetch price" (pyUpper "ETH"),
           ⟨[("ETH_usd", ⟨some 3, none, none⟩)], [], 5 + 1⟩) ∧
     isSuccess (get_price ⟨[("ETH_usd", ⟨some 3, none, none⟩)], [], 5⟩
        (fun _ => .fetchFail) "ETH" "usd").1 = false) :=
  ⟨by decide,
   fetch_failure_leaves_cache_unchanged ⟨[("ETH_usd", ⟨some 3, none, none⟩)], [], 5⟩
     (fun _ => .fetchFail) "ETH" "usd" "ethereum" (by decide) (Or.inl (by decide))⟩

/-- C9 (counterexample): a fetch response that parses as JSON but carries
none of the expected fields is not validated: `get_price` returns a
success dict built from the malformed payload (`success = True`,
`price = None`), not a structured malformed-response error. -/
theorem malformed_payload_returned_as_success :
    (get_price initLib (fun _ => .parsed ⟨none, none, none⟩) "BTC" "usd").1
      = .ok "BTC" "usd" none none none ∧
    isSuccess (get_price initLib (fun _ => .parsed ⟨none, none, none⟩) "BTC" "usd").1
      = true := by
  refine ⟨by decide, by decide⟩

/-- C9 (amended): `get_price` turns an unparseable response into a
structured failure dict, but performs no shape validation on a parseable
payload: whatever fields the payload has (present, missing, or `None`) are
passed through unchanged into a success dict. -/
theorem get_price_no_shape_validation (st : LibState)
    (oracle : Nat → FetchOutcome) (symbol currency cid : String)
    (hs : SUPPORTED_COINS.lookup (pyUpper symbol) = some cid) :
    (oracle st.fetchCount = .parseFail →
       (get_price st oracle symbol currency).1
         = .err "Failed to fetch price" (pyUpper symbol)) ∧
    (∀ d, oracle st.fetchCount = .parsed d →
       (get_price st oracle symbol currency).1
           = .ok (pyUpper symbol) (pyLower currency) d.price d.change_24h d.market_cap ∧
       isSuccess (get_price st oracle symbol currency).1 = true) := by
  constructor
  · intro hp
    unfold get_price
    simp [hs, hp]
  · intro d hd
    unfold get_price
    simp [hs, hd, isSuccess]

/-- C9 witness for `get_price_no_shape_validation`. -/
theorem get_price_no_shape_validation_witness :
    SUPPORTED_COINS.lookup (pyUpper "SOL") = some "solana" ∧
    ((fun _ => FetchOutcome.parsed ⟨none, some 1, none⟩) : Nat → FetchOutcome)
        initLib.fetchCount = .parsed ⟨none, some 1, none⟩ ∧
    (get_price initLib (fun _ => .parsed ⟨none, some 1, none⟩) "SOL" "usd").1
        = .ok (pyUpper "SOL") (pyLower "usd") none (some 1) none ∧
    isSuccess (get_price initLib (fun _ => .parsed ⟨none, some 1, none⟩) "SOL" "usd").1
        = true := by
  refine ⟨by decide, by decide, ?_, ?_⟩
  · exact ((get_price_no_shape_validation initLib (fun _ => .parsed ⟨none, some 1, none⟩)
      "SOL" "usd" "solana" (by decide)).2 ⟨none, some 1, none⟩ (by decide)).1
  · exact ((get_price_no_shape_validation initLib (fun _ => .parsed ⟨none, some 1, none⟩)
      "SOL" "usd" "solana" (by decide)).2 ⟨none, some 1, none⟩ (by decide)).2

/-- Length of the `get_multiple_prices` accumulator: with pairwise-distinct
input symbols, each iteration inserts a fresh key, so the result dict has
one entry per input symbol. -/
theorem multiGo_length (oracle : Nat → FetchOutcome) (currency : String) :
    ∀ (symbols : List String) (acc : List (String × GetPriceResult)) (st : LibState),
      symbols.Nodup → (∀ s ∈ symbols, hasKey acc s = false) →
      (multiGo oracle currency symbols acc st).1.length = acc.length + symbols.length := by
  intro symbols
  induction symbols with
  | nil => intro acc st _ _; simp [multiGo]
  | cons s rest ih =>
      intro acc st hnd hfresh
      have hfs : hasKey acc s = false := hfresh s (by simp)
      have hnd' : rest.Nodup := (List.nodup_cons.mp hnd).2
      have hs_notin : s ∉ rest := (List.nodup_cons.mp hnd).1
      simp only [multiGo]
      rcases hgp : get_price st oracle s currency with ⟨pd, st'⟩
      have hfresh' : ∀ r ∈ rest, hasKey (dictInsert s pd acc) r = false := by
        intro r hr
        rw [dictInsert_eq_append _ hfs, hasKey_append]
        have h1 : hasKey acc r = false := hfresh r (by simp [hr])
        have h2 : hasKey [(s, pd)] r = false := by
          simp [hasKey]
          intro hc
          exact absurd (hc ▸ hr) hs_notin
        simp [h1, h2]
      rw [ih _ _ hnd' hfresh', length_dictInsert_fresh _ hfs]
      simp only [List.length_cons]
      omega

/-- C4 (counterexample): a duplicated input symbol collapses to a single
dict entry, so `count` (1) differs from the input length (2): the claim's
"equals the length of the input sequence" fails. -/
theorem get_multiple_prices_duplicate_symbol_count :
    (get_multiple_prices initLib (fun _ => .fetchFail) ["BTC", "BTC"] "usd").1.count = 1 ∧
    (["BTC", "BTC"] : List String).length = 2 ∧ (1 : Nat) ≠ 2 := by
  refine ⟨by decide, by decide, by decide⟩

/-- C4 (amended): `count` always equals the number of entries of the
per-symbol result dict, and equals the length of the input sequence
whenever the input symbols are pairwise distinct (failed entries included;
duplicated symbols collapse into one entry). -/
theorem get_multiple_prices_count (st : LibState) (oracle : Nat → FetchOutcome)
    (symbols : List String) (currency : String) (h : symbols.Nodup) :
    (get_multiple_prices st oracle symbols currency).1.count
        = (get_multiple_prices st oracle symbols currency).1.prices.length ∧
    (get_multiple_prices st oracle symbols currency).1.count = symbols.length := by
  constructor
  · rfl
  · show (multiGo oracle currency symbols [] st).1.length = symbols.length
    rw [multiGo_length oracle currency symbols [] st h (by intro s _; rfl)]
    simp

/-- C4 witness for `get_multiple_prices_count`: one supported and one
unsupported symbol — the failed entry is counted too. -/
theorem get_multiple_prices_count_witness :
    (["BTC", "XYZ"] : List String).Nodup ∧
    ((get_multiple_prices initLib (fun _ => .fetchFail) ["BTC", "XYZ"] "usd").1.count
        = (get_multiple_prices initLib (fun _ => .fetchFail) ["BTC", "XYZ"] "usd").1.prices.length ∧
     (get_multiple_prices initLib (fun _ => .fetchFail) ["BTC", "XYZ"] "usd").1.count
        = (["BTC", "XYZ"] : List String).length) :=
  ⟨by decide,
   get_multiple_prices_count initLib (fun _ => .fetchFail) ["BTC", "XYZ"] "usd" (by decide)⟩

/-- C5 (counterexample): with `price2 = -1` (a successful fetch carrying a
negative number), the code returns `ratio = 0` — because its guard is
`price2 > 0`, not `price2 == 0` — while the claim's formula
`ratio = price1/price2` demands `-10`. -/
theorem compare_prices_negative_denominator :
    (compare_prices initLib
        (fun n => if n = 0 then .parsed ⟨some 10, some 0, some 0⟩
                  else .parsed ⟨some (-1), some 0, some 0⟩) "BTC" "ETH").1
      = some (.ok "BTC/ETH" "BTC" (some 10) "ETH" (some (-1)) 0 "BTC") ∧
    (10 : Rat) / (-1) = -10 ∧ (0 : Rat) ≠ -10 := by
  refine ⟨by decide, by norm_num, by norm_num⟩

/-- C5 (amended): when both fetches succeed with numeric prices, the
comparison never faults: `ratio = price1/price2` if `price2 > 0` and `0`
otherwise (so `0` at `price2 == 0`, but also for negative `price2`), and
`higher = symbol1` iff `price1 > price2` (ties resolve to `symbol2`). -/
theorem compare_prices_ok_characterisation (st : LibState)
    (oracle : Nat → FetchOutcome) (symbol1 symbol2 : String)
    (r1 r2 : GetPriceResult) (stA stB : LibState) (q1 q2 : Rat)
    (h1 : get_price st oracle symbol1 "usd" = (r1, stA))
    (h2 : get_price stA oracle symbol2 "usd" = (r2, stB))
    (hs1 : isSuccess r1 = true) (hs2 : isSuccess r2 = true)
    (hp1 : resPrice r1 = some q1) (hp2 : resPrice r2 = some q2) :
    compare_prices st oracle symbol1 symbol2
      = (some (.ok (symbol1 ++ "/" ++ symbol2) symbol1 (some q1) symbol2 (some q2)
          (if 0 < q2 then q1 / q2 else 0)
          (if q2 < q1 then symbol1 else symbol2)), stB) := by
  unfold compare_prices
  simp only [h1]
  simp only [h2]
  simp only [hs1, hs2, hp1, hp2, pyGt, pyDiv, Bool.not_true, Bool.or_self, Bool.false_eq_true,
    if_false]
  by_cases hq : 0 < q2 <;> by_cases hgt : q2 < q1 <;> simp [hq, hgt]

/-- C5 witness for `compare_prices_ok_characterisation`, at the claim's own
edge case `price2 = 0`: ratio is 0 and no divide-by-zero fault occurs. -/
theorem compare_prices_ok_characterisation_witness :
    get_price initLib
        (fun n => if n = 0 then .parsed ⟨some 10, some 0, some 0⟩
                  else .parsed ⟨some 0, some 0, some 0⟩) "BTC" "usd"
      = (.ok "BTC" "usd" (some 10) (some 0) (some 0),
         ⟨[("BTC_usd", ⟨some 10, some 0, some 0⟩)], [], 1⟩) ∧
    get_price ⟨[("BTC_usd", ⟨some 10, some 0, some 0⟩)], [], 1⟩
        (fun n => if n = 0 then .parsed ⟨some 10, some 0, some 0⟩
                  else .parsed ⟨some 0, some 0, some 0⟩) "ETH" "usd"
      = (.ok "ETH" "usd" (some 0) (some 0) (some 0),
         ⟨[("BTC_usd", ⟨some 10, some 0, some 0⟩), ("ETH_usd", ⟨some 0, some 0, some 0⟩)],
          [], 2⟩) ∧
    isSuccess (.ok "BTC" "usd" (some 10) (some 0) (some 0)) = true ∧
    isSuccess (.ok "ETH" "usd" (some 0) (some 0) (some 0)) = true ∧
    resPrice (.ok "BTC" "usd" (some 10) (some 0) (some 0)) = some 10 ∧
    resPrice (.ok "ETH" "usd" (some 0) (some 0) (some 0)) = some 0 ∧
    (compare_prices initLib
        (fun n => if n = 0 then .parsed ⟨some 10, some 0, some 0⟩
                  else .parsed ⟨some 0, some 0, some 0⟩) "BTC" "ETH"
      = (some (.ok ("BTC" ++ "/" ++ "ETH") "BTC" (some 10) "ETH" (some 0)
          (if 0 < (0 : Rat) then 10 / 0 else 0)
          (if (0 : Rat) < 10 then "BTC" else "ETH")),
         ⟨[("BTC_usd", ⟨some 10, some 0, some 0⟩), ("ETH_usd", ⟨some 0, some 0, some 0⟩)],
          [], 2⟩)) := by
  refine ⟨by decide, by decide, by decide, by decide, by decide, by decide, ?_⟩
  exact compare_prices_ok_characterisation initLib
      (fun n => if n = 0 then .parsed ⟨some 10, some 0, some 0⟩
                else .parsed ⟨some 0, some 0, some 0⟩) "BTC" "ETH"
      (GetPriceResult.ok "BTC" "usd" (some 10) (some 0) (some 0))
      (.ok "ETH" "usd" (some 0) (some 0) (some 0))
      ⟨[("BTC_usd", ⟨some 10, some 0, some 0⟩)], [], 1⟩
      ⟨[("BTC_usd", ⟨some 10, some 0, some 0⟩), ("ETH_usd", ⟨some 0, some 0, some 0⟩)], [], 2⟩
      10 0 (by decide) (by decide) (by decide) (by decide) (by decide) (by decide)

/-- C8 (counterexample): with `threshold = -100` and a fetched price of 0,
the code's guard `threshold > 0` yields `percentage_diff = 0`, while the
claim's formula (guarded only at `threshold == 0`) demands `-100`. -/
theorem is_price_above_negative_threshold :
    (is_price_above initLib (fun _ => .parsed ⟨some 0, some 0, some 0⟩) "BTC" (-100) "usd").1
      = some (.ok "BTC" 0 (-100) true 100 0) ∧
    ((0 : Rat) - (-100)) / (-100) * 100 = -100 ∧ (0 : Rat) ≠ -100 := by
  refine ⟨?_, by norm_num, by norm_num⟩
  simp +decide [is_price_above, get_price, initLib, isSuccess, resPrice, dictInsert,
    show pyUpper "BTC" = "BTC" from by decide,
    show pyLower "usd" = "usd" from by decide,
    show List.lookup "BTC" SUPPORTED_COINS = some "bitcoin" from by decide]

/-- C8 (amended): on a successful fetch with numeric price, `is_price_above`
never faults: `percentage_diff = (current_price - threshold)/threshold*100`
when `threshold > 0` and `0` otherwise (so 0 at `threshold == 0`, but also
for negative thresholds). -/
theorem is_price_above_percentage_guard (st : LibState)
    (oracle : Nat → FetchOutcome) (symbol currency : String)
    (threshold cp : Rat) (r : GetPriceResult) (st' : LibState)
    (h : get_price st oracle symbol currency = (r, st'))
    (hs : isSuccess r = true) (hp : resPrice r = some cp) :
    is_price_above st oracle symbol threshold currency
      = (some (.ok symbol cp threshold (decide (threshold < cp)) (cp - threshold)
          (if 0 < threshold then (cp - threshold) / threshold * 100 else 0)), st') := by
  unfold is_price_above
  rw [h]
  simp [hs, hp]

/-- C8 witness for `is_price_above_percentage_guard`, at the claim's own
edge case `threshold = 0`: percentage_diff is 0, no division fault. -/
theorem is_price_above_percentage_guard_witness :
    get_price initLib (fun _ => .parsed ⟨some 4, some 0, some 0⟩) "BTC" "usd"
      = (.ok "BTC" "usd" (some 4) (some 0) (some 0),
         ⟨[("BTC_usd", ⟨some 4, some 0, some 0⟩)], [], 1⟩) ∧
    is_price_above initLib (fun _ => .parsed ⟨some 4, some 0, some 0⟩) "BTC" 0 "usd"
      = (some (.ok "BTC" 4 0 (decide ((0 : Rat) < 4)) (4 - 0)
          (if (0 : Rat) < 0 then (4 - 0) / 0 * 100 else 0)),
         ⟨[("BTC_usd", ⟨some 4, some 0, some 0⟩)], [], 1⟩) := by
  constructor
  · decide
  · exact is_price_above_percentage_guard initLib (fun _ => .parsed ⟨some 4, some 0, some 0⟩)
      "BTC" "usd" 0 4 (.ok "BTC" "usd" (some 4) (some 0) (some 0))
      ⟨[("BTC_usd", ⟨some 4, some 0, some 0⟩)], [], 1⟩ (by decide) (by decide) (by decide)

/-- C6 (confirmed): for a user with one active alert rule whose symbol is
supported and whose quote fetch succeeds with numeric price `p`, the rule
appears in `triggered_alerts` exactly when `type = "above"` and
`p > threshold`, or `type = "below"` and `p ≤ threshold`; in particular at
`p = threshold` a below-rule triggers and an above-rule does not. -/
theorem check_alerts_trigger_condition (a : Alert) (p : Rat) (user cid : String)
    (ha : a.active = true)
    (hs : SUPPORTED_COINS.lookup (pyUpper a.symbol) = some cid) :
    ∃ st', check_alerts ⟨[(user, [a])]⟩ initLib
        (fun _ => .parsed ⟨some p, some 0, some 0⟩) user
      = (some (.checked
          (if (a.type = "above" ∧ a.threshold < p) ∨ (a.type = "below" ∧ p ≤ a.threshold)
           then 1 else 0)
          (if (a.type = "above" ∧ a.threshold < p) ∨ (a.type = "below" ∧ p ≤ a.threshold)
           then [⟨a.symbol, a.threshold, p, a.type⟩] else [])), st') := by
  refine ⟨⟨dictInsert (pyUpper a.symbol ++ "_" ++ pyLower "usd") ⟨some p, some 0, some 0⟩ [],
    [], 1⟩, ?_⟩
  unfold check_alerts
  have hlu : List.lookup user [(user, [a])] = some [a] := by simp
  rw [hlu]
  unfold checkAlertsGo
  unfold is_price_above get_price
  simp only [ha, hs, initLib, Bool.not_true, Bool.false_eq_true, if_false, isSuccess, resPrice]
  by_cases hab : a.type = "above" <;> by_cases hbe : a.type = "below" <;>
    by_cases hlt : a.threshold < p <;>
      simp [checkAlertsGo, hab, hbe, hlt, not_lt.mp, le_of_not_lt, not_le.mpr]

/-- C6 witness for `check_alerts_trigger_condition`, at the boundary
`current_price = threshold = 100` with a below-rule: it triggers. -/
theorem check_alerts_trigger_condition_witness :
    (Alert.mk "BTC" 100 "below" true).active = true ∧
    SUPPORTED_COINS.lookup (pyUpper (Alert.mk "BTC" 100 "below" true).symbol)
        = some "bitcoin" ∧
    (∃ st', check_alerts ⟨[("u", [⟨"BTC", 100, "below", true⟩])]⟩ initLib
        (fun _ => .parsed ⟨some 100, some 0, some 0⟩) "u"
      = (some (.checked
          (if (("below" : String) = "above" ∧ (100 : Rat) < 100)
              ∨ (("below" : String) = "below" ∧ (100 : Rat) ≤ 100) then 1 else 0)
          (if (("below" : String) = "above" ∧ (100 : Rat) < 100)
              ∨ (("below" : String) = "below" ∧ (100 : Rat) ≤ 100)
           then [⟨"BTC", 100, 100, "below"⟩] else [])), st')) :=
  ⟨by decide, by decide,
   check_alerts_trigger_condition ⟨"BTC", 100, "below", true⟩ 100 "u" "bitcoin"
     (by decide) (by decide)⟩

/-- Every entry ever appended to the `triggered` list by the `check_alerts`
loop comes from a rule whose type matched one of the two recognised
strings. -/
theorem checkAlertsGo_type_invariant (oracle : Nat → FetchOutcome) :
    ∀ (alerts : List Alert) (st : LibState) (acc out : List TriggeredAlert) (st' : LibState),
      checkAlertsGo oracle alerts st acc = some (out, st') →
      (∀ t ∈ acc, t.type = "above" ∨ t.type = "below") →
      ∀ t ∈ out, t.type = "above" ∨ t.type = "below" := by
  intro alerts
  induction alerts with
  | nil =>
      intro st acc out st' h hacc
      simp only [checkAlertsGo, Option.some.injEq, Prod.mk.injEq] at h
      exact h.1 ▸ hacc
  | cons a rest ih =>
      intro st acc out st' h hacc
      simp only [checkAlertsGo] at h
      by_cases hact : a.active
      · simp only [hact, Bool.not_true, Bool.false_eq_true, if_false] at h
        rcases hia : is_price_above st oracle a.symbol a.threshold "usd" with ⟨ro, st1⟩
        rw [hia] at h
        match ro with
        | none => exact absurd h (by simp)
        | some (.passthrough _) => exact ih st1 acc out st' h hacc
        | some (.ok s0 cp t0 isAb d0 pd0) =>
            by_cases hab : a.type = "above" <;> by_cases hbe : a.type = "below" <;>
              cases hAb : isAb <;> simp only [hab, hbe, hAb] at h <;>
                first
                | exact ih st1 acc out st' (by simpa using h) hacc
                | · refine ih st1 _ out st' (by simpa using h) ?_
                    intro t ht
                    rcases List.mem_append.mp ht with ht | ht
                    · exact hacc t ht
                    · simp at ht
                      subst ht
                      simp [hab, hbe]
      · simp only [hact] at h
        exact ih st acc out st' (by simpa using h) hacc

/-- C10 (confirmed): `set_price_alert` accepts and stores an alert carrying
any `alert_type` string whatsoever (appended to the caller's list, active),
yet `check_alerts` only ever emits triggered entries whose type is
`"above"` or `"below"` — an alert with any other type is never included in
the triggered output, whatever the current price. -/
theorem set_alert_any_type_unknown_never_triggers (ex : ExState)
    (sender symbol : String) (threshold : Rat) (alert_type : String)
    (libSt : LibState) (oracle : Nat → FetchOutcome)
    (res : CheckAlertsResult) (st' : LibState) :
    ((set_price_alert ex sender symbol threshold alert_type).1.success = true ∧
     (set_price_alert ex sender symbol threshold alert_type).1.alert
        = ⟨symbol, threshold, alert_type, true⟩ ∧
     List.lookup sender (set_price_alert ex sender symbol threshold alert_type).2.user_alerts
        = some ((List.lookup sender ex.user_alerts).getD []
            ++ [⟨symbol, threshold, alert_type, true⟩])) ∧
    (check_alerts ex libSt oracle sender = (some res, st') →
      ∀ t ∈ trigList res, t.type = "above" ∨ t.type = "below") := by
  constructor
  · refine ⟨rfl, rfl, ?_⟩
    exact lookup_dictInsert sender _ ex.user_alerts
  · intro h t ht
    unfold check_alerts at h
    rcases hlu : List.lookup sender ex.user_alerts with _ | alerts
    · simp only [hlu] at h
      simp only [Prod.mk.injEq, Option.some.injEq] at h
      rw [← h.1] at ht
      simp [trigList] at ht
    · simp only [hlu] at h
      rcases hgo : checkAlertsGo oracle alerts libSt [] with _ | ⟨out, stf⟩
      · rw [hgo] at h
        simp at h
      · rw [hgo] at h
        simp only [Prod.mk.injEq, Option.some.injEq] at h
        rw [← h.1] at ht
        simp only [trigList] at ht
        exact checkAlertsGo_type_invariant oracle alerts libSt [] out stf hgo
          (by intro t' ht'; simp at ht') t ht

/-- C10 witness for `set_alert_any_type_unknown_never_triggers`: an alert of
type "weird" is stored, and a `check_alerts` run over a store holding that
alert (price 50 vs threshold 1) triggers nothing. -/
theorem set_alert_any_type_unknown_never_triggers_witness :
    ((set_price_alert ⟨[]⟩ "u" "BTC" 1 "weird").1.success = true ∧
     (set_price_alert ⟨[]⟩ "u" "BTC" 1 "weird").1.alert = ⟨"BTC", 1, "weird", true⟩ ∧
     List.lookup "u" (set_price_alert ⟨[]⟩ "u" "BTC" 1 "weird").2.user_alerts
        = some ((List.lookup "u" (ExState.mk []).user_alerts).getD []
            ++ [⟨"BTC", 1, "weird", true⟩])) ∧
    (check_alerts ⟨[("u", [⟨"BTC", 1, "weird", true⟩])]⟩ initLib
        (fun _ => .parsed ⟨some 50, some 0, some 0⟩) "u"
      = (some (.checked 0 []),
         ⟨[("BTC_usd", ⟨some 50, some 0, some 0⟩)], [], 1⟩) ∧
     ∀ t ∈ trigList (.checked 0 []), t.type = "above" ∨ t.type = "below") := by
  constructor
  · exact (set_alert_any_type_unknown_never_triggers ⟨[]⟩ "u" "BTC" 1 "weird"
      initLib (fun _ => .parsed ⟨some 50, some 0, some 0⟩) (.checked 0 [])
      ⟨[("BTC_usd", ⟨some 50, some 0, some 0⟩)], [], 1⟩).1
  · refine ⟨by decide, ?_⟩
    exact (set_alert_any_type_unknown_never_triggers
      ⟨[("u", [⟨"BTC", 1, "weird", true⟩])]⟩ "u" "BTC" 1 "weird"
      initLib (fun _ => .parsed ⟨some 50, some 0, some 0⟩) (.checked 0 [])
      ⟨[("BTC_usd", ⟨some 50, some 0, some 0⟩)], [], 1⟩).2 (by decide)

/-- Characterisation of the portfolio loop under an external source that
always answers with the numeric price `p`: the holdings whose symbol is
unsupported fail their fetch and are skipped; each supported holding is
appended to the breakdown with `value = p * amount` and added to the
running total. -/
theorem portfolioGo_const (p : Rat) :
    ∀ (holdings : List (String × Rat)) (st : LibState) (total : Rat)
      (bd : List (String × BreakdownEntry)),
      (holdings.map Prod.fst).Nodup →
      (∀ h ∈ holdings, hasKey bd h.1 = false) →
      ∃ st', portfolioGo (fun _ => .parsed ⟨some p, some 0, some 0⟩) holdings st total bd
        = some (total + ((holdings.filter
              (fun h => (SUPPORTED_COINS.lookup (pyUpper h.1)).isSome)).map
              (fun h => p * h.2)).sum,
            bd ++ (holdings.filter
              (fun h => (SUPPORTED_COINS.lookup (pyUpper h.1)).isSome)).map
              (fun h => (h.1, ⟨h.2, p, p * h.2⟩)),
            st') := by
  intro holdings
  induction holdings with
  | nil =>
      intro st total bd _ _
      exact ⟨st, by simp [portfolioGo]⟩
  | cons hd rest ih =>
      intro st total bd hnd hfresh
      obtain ⟨s, amt⟩ := hd
      have hnd' : (rest.map Prod.fst).Nodup := (List.nodup_cons.mp (by simpa using hnd)).2
      have hs_notin : s ∉ rest.map Prod.fst := (List.nodup_cons.mp (by simpa using hnd)).1
      have hfs : hasKey bd s = false := hfresh (s, amt) (by simp)
      simp only [portfolioGo]
      rcases hlu : SUPPORTED_COINS.lookup (pyUpper s) with _ | cid
      · have hgp : get_price st (fun _ => .parsed ⟨some p, some 0, some 0⟩) s "usd"
            = (.unsupported ("Unsupported symbol: " ++ pyUpper s)
                (SUPPORTED_COINS.map Prod.fst), st) := by
          unfold get_price
          simp only [hlu]
        rw [hgp]
        simp only [isSuccess, Bool.false_eq_true, if_false]
        obtain ⟨st', hrec⟩ := ih st total bd hnd' (by intro h hh; exact hfresh h (by simp [hh]))
        refine ⟨st', ?_⟩
        rw [hrec]
        simp [hlu]
      · have hgp : get_price st (fun _ => .parsed ⟨some p, some 0, some 0⟩) s "usd"
            = (.ok (pyUpper s) (pyLower "usd") (some p) (some 0) (some 0),
               ⟨dictInsert (pyUpper s ++ "_" ++ pyLower "usd") ⟨some p, some 0, some 0⟩
                   st.price_cache, st.last_update, st.fetchCount + 1⟩) := by
          unfold get_price
          simp only [hlu]
        rw [hgp]
        simp only [isSuccess, resPrice, pyMul, if_true]
        have hbd : dictInsert s (⟨amt, p, p * amt⟩ : BreakdownEntry) bd
            = bd ++ [(s, ⟨amt, p, p * amt⟩)] := dictInsert_eq_append _ hfs
        have hfresh' : ∀ h ∈ rest, hasKey (bd ++ [(s, (⟨amt, p, p * amt⟩ : BreakdownEntry))])
            h.1 = false := by
          intro h hh
          rw [hasKey_append]
          have h1 : hasKey bd h.1 = false := hfresh h (by simp [hh])
          have h2 : hasKey [(s, (⟨amt, p, p * amt⟩ : BreakdownEntry))] h.1 = false := by
            simp [hasKey]
            intro hc
            exact absurd (hc ▸ List.mem_map_of_mem Prod.fst hh) hs_notin
          simp [h1, h2]
        obtain ⟨st', hrec⟩ := ih _ (total + p * amt) (bd ++ [(s, ⟨amt, p, p * amt⟩)])
          hnd' hfresh'
        refine ⟨st', ?_⟩
        rw [hbd, hrec]
        simp [hlu, add_assoc]

/-- C7 (confirmed): portfolio valuation over any holdings map (distinct
symbols, as in a Python dict), with an external source answering price `p`:
every symbol whose fetch fails (here: unsupported symbols, which is what
the spec's own `ZZZ` scenario exercises) is silently excluded from both
the breakdown and the total; every symbol whose fetch succeeds contributes
`value = price * amount` to both; and the call returns an ordinary result
dict (total, breakdown, currency) with no partial-failure indication —
the result type has no failure field at all. -/
theorem check_portfolio_value_partial_failure (holdings : List (String × Rat))
    (p : Rat) (libSt : LibState) (hnd : (holdings.map Prod.fst).Nodup) :
    ∃ st', check_portfolio_value holdings libSt
        (fun _ => .parsed ⟨some p, some 0, some 0⟩)
      = some (⟨((holdings.filter
            (fun h => (SUPPORTED_COINS.lookup (pyUpper h.1)).isSome)).map
            (fun h => p * h.2)).sum,
          (holdings.filter
            (fun h => (SUPPORTED_COINS.lookup (pyUpper h.1)).isSome)).map
            (fun h => (h.1, ⟨h.2, p, p * h.2⟩)),
          "USD"⟩, st') := by
  obtain ⟨st', h⟩ := portfolioGo_const p holdings libSt 0 [] hnd (by intro h _; rfl)
  refine ⟨st', ?_⟩
  unfold check_portfolio_value
  rw [h]
  simp

/-- C7 witness for `check_portfolio_value_partial_failure`: the spec's own
scenario — holdings `{BTC: 1, ZZZ: 1}` at price 50000; ZZZ fails to fetch
and is absent from the breakdown, the total reflects only BTC. -/
theorem check_portfolio_value_partial_failure_witness :
    ((([("BTC", (1 : Rat)), ("ZZZ", 1)]).map Prod.fst).Nodup) ∧
    (∃ st', check_portfolio_value [("BTC", 1), ("ZZZ", 1)] initLib
        (fun _ => .parsed ⟨some 50000, some 0, some 0⟩)
      = some (⟨((([("BTC", (1 : Rat)), ("ZZZ", 1)]).filter
            (fun h => (SUPPORTED_COINS.lookup (pyUpper h.1)).isSome)).map
            (fun h => 50000 * h.2)).sum,
          (([("BTC", (1 : Rat)), ("ZZZ", 1)]).filter
            (fun h => (SUPPORTED_COINS.lookup (pyUpper h.1)).isSome)).map
            (fun h => (h.1, ⟨h.2, 50000, 50000 * h.2⟩)),
          "USD"⟩, st')) :=
  ⟨by decide,
   check_portfolio_value_partial_failure [("BTC", 1), ("ZZZ", 1)] 50000 initLib (by decide)⟩
